import Mathlib

/-!
Verification of the OptiMac profile store and batch executor
(`enhanced_macos_optimizer.py`), as a shallow embedding in Lean 4.

The embedding models:
* JSON values (`Json`) as produced/consumed by `json.load` / `json.dump`;
* the state of the backing store (`Fs`): whether the per-user profiles
  directory exists, whether the filesystem is writable, and the state of the
  backing `profiles.json` file (`FileState`);
* the `MacOptimizer` profile-store methods `load_profiles`, `save_profiles`,
  `save_current_profile`, `delete_selected_profile`;
* the batch executor `execute_optimizations` / `run_command` over the
  static command catalog, parametrised by an environment `exec` that gives
  each shell command's outcome (exit code, stdout, stderr, or a raised
  exception);
* the menu-bar agent's `run_profile`;
* the run-button serialization discipline of the GUI as a small transition
  system.
-/

/-- A JSON value, as returned by `json.load`. -/
inductive Json where
  | null : Json
  | bool (b : Bool) : Json
  | num (n : Int) : Json
  | str (s : String) : Json
  | arr (xs : List Json) : Json
  | obj (fields : List (String × Json)) : Json

/-- State of the backing `profiles.json` file. -/
inductive FileState where
  | missing : FileState
  | unparsable : FileState
  | parsed (v : Json) : FileState

/-- State of the filesystem as seen by the store: whether writes succeed,
whether the `~/.optimac_profiles` directory exists, and the backing file. -/
structure Fs where
  writable : Bool
  dirExists : Bool
  file : FileState

/-- The I/O failure raised when the directory or file cannot be written. -/
inductive FsError where
  | cannotWrite : FsError

/-- A profile as stored under a name in the profiles mapping:
`optimizations` (ordered keys), `description`, and the optional `created`
timestamp (absent for the seed profiles). -/
structure Profile where
  optimizations : List String
  description : String
  created : Option String
deriving DecidableEq

/-- The in-memory profiles mapping `self.profiles`: an association list from
profile name to profile, in insertion order (Python dicts preserve it). -/
abbrev ProfilesMap := List (String × Profile)

/-- Encode one profile as the JSON object written by `json.dump`
(the `created` field is present only when the profile has one). -/
def encodeProfile (p : Profile) : Json :=
  Json.obj
    ([("optimizations", Json.arr (p.optimizations.map Json.str)),
      ("description", Json.str p.description)] ++
     (match p.created with
      | some c => [("created", Json.str c)]
      | none => []))

/-- Encode the whole mapping as the JSON document written by `json.dump`. -/
def encodeProfiles (m : ProfilesMap) : Json :=
  Json.obj (m.map (fun f => (f.1, encodeProfile f.2)))

/-- Map a fallible function over a list, failing if any element fails. -/
def optionMapList (f : α → Option β) : List α → Option (List β)
  | [] => some []
  | a :: as =>
    match f a with
    | none => none
    | some b => (optionMapList f as).map (fun bs => b :: bs)

/-- Read a JSON string. -/
def asString : Json → Option String
  | Json.str s => some s
  | _ => none

/-- Read a JSON array of strings. -/
def asStringList : Json → Option (List String)
  | Json.arr xs => optionMapList asString xs
  | _ => none

/-- Decode a profile object of the persisted shape
`\x7b "optimizations": [...], "description": ..., "created"? : ... \x7d`. -/
def decodeProfile : Json → Option Profile
  | Json.obj [("optimizations", o), ("description", Json.str d)] =>
    (asStringList o).map (fun ks => ⟨ks, d, none⟩)
  | Json.obj [("optimizations", o), ("description", Json.str d),
              ("created", Json.str c)] =>
    (asStringList o).map (fun ks => ⟨ks, d, some c⟩)
  | _ => none

/-- Decode the persisted document back into a profiles mapping. -/
def decodeProfiles : Json → Option ProfilesMap
  | Json.obj fields =>
    optionMapList (fun f => (decodeProfile f.2).map (fun p => (f.1, p))) fields
  | _ => none

/-- The built-in default profiles returned by `MacOptimizer.load_profiles`
when the backing file is missing or unparsable (three seed profiles,
no `created` timestamps). -/
def defaultProfiles : ProfilesMap :=
  [("Performance Boost",
    ⟨["purge_memory", "clear_caches", "disable_dock_animation", "reduce_motion"],
     "Quick performance improvements", none⟩),
   ("Developer Setup",
    ⟨["optimize_python", "optimize_git", "optimize_homebrew", "optimize_node"],
     "Optimize development environment", none⟩),
   ("Network Optimization",
    ⟨["flush_dns", "optimize_tcp", "optimize_wifi"],
     "Network performance tweaks", none⟩)]

namespace MacOptimizer

/-- `MacOptimizer.load_profiles`: first `PROFILES_DIR.mkdir(exist_ok=True)`.
This call sits outside the `try`, so when the directory is absent and cannot
be created (non-writable filesystem) it raises and that failure propagates
to the caller; when the directory already exists, `exist_ok=True` makes it
succeed. Then, if the backing file exists, the method tries to parse it with
`json.load`, returning the parsed value; any open or parse error is
swallowed (`except: pass`) and, as for a missing file, the built-in default
profiles are returned. The parsed value is returned as-is, with no schema
validation. Returns the updated filesystem and the loaded JSON value, or
the propagated `mkdir` failure. -/
def load_profiles (fs : Fs) : Except FsError (Fs × Json) :=
  if !fs.dirExists && !fs.writable then
    Except.error FsError.cannotWrite
  else
    let fs' : Fs := { fs with dirExists := true }
    match fs.file with
    | FileState.parsed v => Except.ok (fs', v)
    | FileState.unparsable => Except.ok (fs', encodeProfiles defaultProfiles)
    | FileState.missing => Except.ok (fs', encodeProfiles defaultProfiles)

/-- `MacOptimizer.save_profiles`: `PROFILES_DIR.mkdir(exist_ok=True)`, then
`json.dump` of the whole document to `profiles.json`, with no exception
handler: an I/O failure propagates to the caller. -/
def save_profiles (fs : Fs) (v : Json) : Except FsError Fs :=
  if fs.writable then
    Except.ok { fs with dirExists := true, file := FileState.parsed v }
  else
    Except.error FsError.cannotWrite

end MacOptimizer

/-- Python dict update `d[k] = v`: replaces the entry in place if the key is
present, otherwise appends it (Python dicts keep insertion order). -/
def dictInsert (m : ProfilesMap) (k : String) (v : Profile) : ProfilesMap :=
  if m.any (fun f => f.1 == k) then
    m.map (fun f => if f.1 == k then (k, v) else f)
  else
    m ++ [(k, v)]

/-- `MacOptimizer.save_current_profile`: if no optimizations are selected, a
warning is shown and nothing happens; if the profile dialog was cancelled
(`dialog.result is None`), nothing happens; otherwise the mapping gets the
entry `name -> (selected, description, created := now)` (add or replace) and
`save_profiles` persists the whole mapping. Returns the updated filesystem
and mapping, or propagates the save error. -/
def MacOptimizer.save_current_profile (fs : Fs) (profiles : ProfilesMap)
    (selected : List String) (dialogResult : Option (String × String))
    (now : String) : Except FsError (Fs × ProfilesMap) :=
  if selected.isEmpty then Except.ok (fs, profiles)
  else
    match dialogResult with
    | none => Except.ok (fs, profiles)
    | some (name, description) =>
      let m := dictInsert profiles name ⟨selected, description, some now⟩
      match MacOptimizer.save_profiles fs (encodeProfiles m) with
      | Except.ok fs' => Except.ok (fs', m)
      | Except.error e => Except.error e

/-- `MacOptimizer.delete_selected_profile`: if the selected name is empty or
not in the mapping, a warning is shown and nothing happens (early return,
before any dialog or save). Otherwise, after a confirmation dialog, the
entry is removed (`del`) and `save_profiles` persists the mapping. -/
def MacOptimizer.delete_selected_profile (fs : Fs) (profiles : ProfilesMap)
    (name : String) (confirm : Bool) : Except FsError (Fs × ProfilesMap) :=
  if name == "" || !(profiles.any (fun f => f.1 == name)) then
    Except.ok (fs, profiles)
  else if confirm then
    let m := profiles.filter (fun f => !(f.1 == name))
    match MacOptimizer.save_profiles fs (encodeProfiles m) with
    | Except.ok fs' => Except.ok (fs', m)
    | Except.error e => Except.error e
  else
    Except.ok (fs, profiles)

/-- Outcome of `subprocess.run(command, shell=True, capture_output=True)`:
either the command ran and produced an exit code with output streams, or an
exception was raised while invoking it. -/
inductive ExecOutcome where
  | ok (exitCode : Int) (stdout stderr : String) : ExecOutcome
  | exn (message : String) : ExecOutcome

/-- Per-command record of one batch step, as surfaced in the output log:
the key, the resolved command and description (empty when the key is
unknown), the exit code (absent on exception or unknown key), the captured
streams, whether it succeeded (`returncode == 0`), and whether the key was
missing from the catalog. -/
structure ExecutionResult where
  key : String
  command : String
  description : String
  exitCode : Option Int
  stdout : String
  stderr : String
  succeeded : Bool
  notImplemented : Bool
deriving DecidableEq

namespace MacOptimizer

/-- `MacOptimizer.run_command`: runs the shell command, logging success when
`result.returncode == 0` and the error output otherwise; any exception is
caught and logged, and never propagates out of the batch loop. -/
def run_command (exec : String → ExecOutcome) (key command description : String) :
    ExecutionResult :=
  match exec command with
  | ExecOutcome.ok code out err =>
    ⟨key, command, description, some code, out, err, code == 0, false⟩
  | ExecOutcome.exn msg =>
    ⟨key, command, description, none, "", msg, false, false⟩

/-- The static command catalog `optimization_commands` inside
`MacOptimizer.execute_optimizations`: optimization key to
(shell command, description), transcribed from the source. -/
def optimization_commands : List (String × String × String) :=
  [("purge_memory", "sudo purge", "Purging inactive memory"),
   ("clear_caches",
    "sudo rm -rf ~/Library/Caches/* /System/Library/Caches/* /Library/Caches/*",
    "Clearing system caches"),
   ("optimize_swap", "sudo sysctl vm.swappiness=10", "Optimizing swap usage"),
   ("disable_spotlight_indexing", "sudo mdutil -a -i off",
    "Disabling Spotlight indexing"),
   ("reindex_spotlight", "sudo mdutil -E /", "Re-indexing Spotlight"),
   ("reduce_motion",
    "defaults write com.apple.universalaccess reduceMotion -bool true",
    "Reducing motion and animations"),
   ("disable_dock_animation",
    "defaults write com.apple.dock autohide-time-modifier -float 0",
    "Disabling Dock animations"),
   ("disable_finder_animation",
    "defaults write com.apple.finder DisableAllAnimations -bool true",
    "Disabling Finder animations"),
   ("optimize_launchpad",
    "defaults write com.apple.dock springboard-show-duration -float 0",
    "Optimizing Launchpad"),
   ("disable_dashboard",
    "defaults write com.apple.dashboard mcx-disabled -bool true",
    "Disabling Dashboard"),
   ("optimize_mission_control",
    "defaults write com.apple.dock expose-animation-duration -float 0",
    "Optimizing Mission Control"),
   ("enable_trim", "sudo trimforce enable", "Enabling TRIM support"),
   ("flush_dns", "sudo dscacheutil -flushcache; sudo killall -HUP mDNSResponder",
    "Flushing DNS cache"),
   ("optimize_tcp", "sudo sysctl -w net.inet.tcp.delayed_ack=0",
    "Optimizing TCP settings"),
   ("disable_ipv6", "networksetup -setv6off Wi-Fi", "Disabling IPv6"),
   ("optimize_wifi",
    "sudo /System/Library/PrivateFrameworks/Apple80211.framework/Versions/Current/Resources/airport -z",
    "Optimizing Wi-Fi"),
   ("optimize_python", "conda clean --all -y", "Optimizing Python/Conda"),
   ("optimize_git",
    "git config --global core.preloadindex true; git config --global core.fscache true",
    "Optimizing Git"),
   ("optimize_homebrew", "brew cleanup; brew doctor", "Optimizing Homebrew"),
   ("optimize_node", "npm cache clean --force", "Optimizing Node.js"),
   ("thermal_optimization", "sudo pmset -a thermalstate 0",
    "Configuring thermal management"),
   ("power_management", "sudo pmset -a standby 0; sudo pmset -a autopoweroff 0",
    "Optimizing power management"),
   ("kernel_optimization",
    "echo \x27kern.maxfiles=65536\x27 | sudo tee -a /etc/sysctl.conf",
    "Applying kernel tweaks"),
   ("create_backup", "sudo tmutil startbackup", "Creating system backup")]

/-- Catalog lookup `optimization in optimization_commands`, returning the
command and description when the key is present. -/
def lookupCatalog (key : String) : Option (String × String) :=
  match optimization_commands.find? (fun e => e.1 == key) with
  | some e => some e.2
  | none => none

/-- One iteration of the loop in `MacOptimizer.execute_optimizations`: if
the key is in the catalog its command is run via `run_command`; otherwise an
"Unknown optimization" warning is logged for that key and the loop moves on
(recorded as a not-implemented result). -/
def execute_one (exec : String → ExecOutcome) (key : String) : ExecutionResult :=
  match lookupCatalog key with
  | some cd => run_command exec key cd.1 cd.2
  | none => ⟨key, "", "", none, "", "", false, true⟩

/-- `MacOptimizer.execute_optimizations`: processes each selected key in the
given order, one record per key; no per-key outcome aborts the loop. -/
def execute_optimizations (exec : String → ExecOutcome) (selected : List String) :
    List ExecutionResult :=
  selected.map (execute_one exec)

end MacOptimizer

/-- Observable effect of a menu-bar action: posting a user notification, or
running a shell command. -/
inductive AgentEffect where
  | notify (title subtitle message : String) : AgentEffect
  | shell (command : String) : AgentEffect
deriving DecidableEq

/-- `OptiMacMenuBar.run_profile`: when the name is a saved profile, the body
only posts a "Profile Running" notification (the actual execution is an
unimplemented stub, per the source comment); otherwise nothing happens.
Returns the list of effects and the (unchanged) profiles mapping. -/
def OptiMacMenuBar.run_profile (profiles : ProfilesMap) (name : String) :
    List AgentEffect × ProfilesMap :=
  if profiles.any (fun f => f.1 == name) then
    ([AgentEffect.notify "OptiMac" "Profile Running"
        ("Running " ++ name ++ " profile...")], profiles)
  else
    ([], profiles)

/-- GUI state relevant to batch serialization: whether the
"Run Selected Optimizations" button is enabled, and how many background
batches are in flight. -/
structure UiState where
  runBtnEnabled : Bool
  inFlight : Nat
deriving DecidableEq

/-- The initial GUI state: button enabled, no batch running. -/
def uiInit : UiState := { runBtnEnabled := true, inFlight := 0 }

/-- Events of the batch-triggering handlers, on the single Tk event thread.
A click of the "Run Selected Optimizations" button is only delivered while
that button is enabled (a disabled Tk button fires no callback); a click
with an empty selection, or whose confirmation dialog is declined, returns
early without starting a batch; otherwise `run_selected_optimizations`
disables the run button and spawns the batch thread before returning to the
event loop. The "Run Profile" button is never disabled: its handler
`run_selected_profile` (with a profile selected and the confirmation
accepted) calls `run_selected_optimizations` directly regardless of the run
button's state, which disables the run button (again) and spawns another
batch thread. On completion of any batch `optimization_complete` re-enables
the run button. -/
inductive UiStep : UiState → UiState → Prop where
  | clickEmptySelection (s : UiState) (h : s.runBtnEnabled = true) : UiStep s s
  | clickDeclined (s : UiState) (h : s.runBtnEnabled = true) : UiStep s s
  | clickRun (s : UiState) (h : s.runBtnEnabled = true) :
      UiStep s { runBtnEnabled := false, inFlight := s.inFlight + 1 }
  | clickRunProfile (s : UiState) :
      UiStep s { runBtnEnabled := false, inFlight := s.inFlight + 1 }
  | complete (s : UiState) (n : Nat) (h : s.inFlight = n + 1) :
      UiStep s { runBtnEnabled := true, inFlight := n }

/-- States reachable from the initial GUI state. -/
inductive UiReachable : UiState → Prop where
  | init : UiReachable uiInit
  | step {s s' : UiState} : UiReachable s → UiStep s s' → UiReachable s'

/-- Lookup of a profile by name in a mapping (the first entry whose key
matches, as in a Python dict). -/
def lookupProfile (m : ProfilesMap) (name : String) : Option Profile :=
  match m.find? (fun f => f.1 == name) with
  | some f => some f.2
  | none => none

/-! ## Helper lemmas -/

theorem optionMapList_asString_map_str (l : List String) :
    optionMapList asString (l.map Json.str) = some l := by
  induction l with
  | nil => rfl
  | cons a as ih => simp [optionMapList, asString, ih]

theorem decodeProfile_encodeProfile (p : Profile) :
    decodeProfile (encodeProfile p) = some p := by
  rcases p with ⟨ks, d, c⟩
  cases c with
  | none =>
    simp [encodeProfile, decodeProfile, asStringList, optionMapList_asString_map_str]
  | some c =>
    simp [encodeProfile, decodeProfile, asStringList, optionMapList_asString_map_str]

theorem decodeProfiles_encodeProfiles (m : ProfilesMap) :
    decodeProfiles (encodeProfiles m) = some m := by
  induction m with
  | nil => rfl
  | cons f fs ih =>
    have ih' := ih
    simp only [encodeProfiles, decodeProfiles, List.map_cons] at ih' ⊢
    simp [optionMapList, decodeProfile_encodeProfile, ih']

theorem find?_map_replace (m : ProfilesMap) (k : String) (v : Profile)
    (h : m.any (fun f => f.1 == k) = true) :
    (m.map (fun f => if f.1 == k then (k, v) else f)).find? (fun f => f.1 == k)
      = some (k, v) := by
  induction m with
  | nil => simp at h
  | cons f fs ih =>
    rw [List.map_cons]
    by_cases hf : (f.1 == k) = true
    · rw [if_pos hf]
      exact List.find?_cons_of_pos _ (by simp)
    · have hf' : (f.1 == k) = false := by
        revert hf
        cases f.1 == k <;> simp
      rw [if_neg hf, List.find?_cons_of_neg _ (by simp [hf'])]
      apply ih
      simp only [List.any_cons, hf', Bool.false_or] at h
      exact h

theorem find?_append_absent (m : ProfilesMap) (k : String) (v : Profile)
    (h : m.any (fun f => f.1 == k) = false) :
    ((m ++ [(k, v)]).find? (fun f => f.1 == k)) = some (k, v) := by
  induction m with
  | nil => simp
  | cons f fs ih =>
    simp only [List.any_cons, Bool.or_eq_false_iff] at h
    simp [h.1, ih h.2]

theorem find?_dictInsert (m : ProfilesMap) (k : String) (v : Profile) :
    (dictInsert m k v).find? (fun f => f.1 == k) = some (k, v) := by
  unfold dictInsert
  cases h : m.any (fun f => f.1 == k) with
  | true =>
    rw [if_pos rfl]
    exact find?_map_replace m k v h
  | false =>
    rw [if_neg (by simp)]
    exact find?_append_absent m k v h

theorem lookupProfile_dictInsert (m : ProfilesMap) (k : String) (v : Profile) :
    lookupProfile (dictInsert m k v) k = some v := by
  simp [lookupProfile, find?_dictInsert]

theorem run_command_key (exec : String → ExecOutcome) (k cmd desc : String) :
    (MacOptimizer.run_command exec k cmd desc).key = k := by
  unfold MacOptimizer.run_command
  cases exec cmd <;> rfl

theorem execute_one_key (exec : String → ExecOutcome) (k : String) :
    (MacOptimizer.execute_one exec k).key = k := by
  unfold MacOptimizer.execute_one
  cases MacOptimizer.lookupCatalog k with
  | some cd => exact run_command_key exec k cd.1 cd.2
  | none => rfl

theorem execute_map_key (exec : String → ExecOutcome) (keys : List String) :
    (MacOptimizer.execute_optimizations exec keys).map (fun r => r.key) = keys := by
  induction keys with
  | nil => rfl
  | cons k ks ih =>
    simp only [MacOptimizer.execute_optimizations, List.map_cons] at ih ⊢
    simp [execute_one_key, ih]

theorem execute_getElem (exec : String → ExecOutcome) (keys : List String) (i : Nat) :
    (MacOptimizer.execute_optimizations exec keys)[i]?
      = (keys[i]?).map (MacOptimizer.execute_one exec) := by
  simp [MacOptimizer.execute_optimizations]

/-! ## Claim theorems -/

/-- C3 counterexample, two concrete failures of the claim: (1) with the
backing file containing valid JSON that does not match the profile schema
(here the JSON array `[]`), `load_profiles` returns the parsed value
unchanged, not the built-in default mapping; (2) with the profiles
directory absent on a non-writable filesystem and the file missing, the
initial `PROFILES_DIR.mkdir` (outside the `try`) raises, so a hard failure
does propagate. -/
theorem load_schema_mismatch_counterexample :
    MacOptimizer.load_profiles ⟨true, true, FileState.parsed (Json.arr [])⟩
      = Except.ok (⟨true, true, FileState.parsed (Json.arr [])⟩, Json.arr []) ∧
    Json.arr [] ≠ encodeProfiles defaultProfiles ∧
    MacOptimizer.load_profiles ⟨false, false, FileState.missing⟩
      = Except.error FsError.cannotWrite := by
  refine ⟨rfl, ?_, rfl⟩
  intro h
  simp [encodeProfiles, defaultProfiles] at h

/-- C3 (amended): when the backing file is missing or unparsable and the
profiles directory exists or can be created (writable filesystem),
`load_profiles` returns the fixed built-in default mapping without raising
(the source swallows every open/parse error with a bare `except: pass`).
A file that parses as valid JSON is returned as parsed, even when it does
not match the profile schema; and when the directory is absent and cannot
be created, the initial `mkdir` failure does propagate to the caller. -/
theorem load_fallback_returns_defaults (fs : Fs)
    (hmk : fs.dirExists = true ∨ fs.writable = true)
    (h : fs.file = FileState.missing ∨ fs.file = FileState.unparsable) :
    ∃ fs', MacOptimizer.load_profiles fs
      = Except.ok (fs', encodeProfiles defaultProfiles) := by
  refine ⟨⟨fs.writable, true, fs.file⟩, ?_⟩
  have hg : (!fs.dirExists && !fs.writable) = false := by
    rcases hmk with hmk | hmk <;> simp [hmk]
  rcases h with h | h <;> simp [MacOptimizer.load_profiles, hg, h]

/-- Witness for the amended C3 at a concrete store state (existing
directory, missing file). -/
theorem load_fallback_returns_defaults_witness :
    ∃ fs', MacOptimizer.load_profiles ⟨true, true, FileState.missing⟩
      = Except.ok (fs', encodeProfiles defaultProfiles) :=
  load_fallback_returns_defaults ⟨true, true, FileState.missing⟩
    (Or.inl rfl) (Or.inl rfl)

/-- C5: deleting a name that is not in the profile mapping is a no-op that
does not raise: the method returns early (before any dialog or save), so
the in-memory mapping and the backing file are unchanged — and therefore
repeating the call changes nothing either (idempotent). -/
theorem delete_absent_name_noop (fs : Fs) (profiles : ProfilesMap)
    (name : String) (confirm : Bool)
    (h : profiles.any (fun f => f.1 == name) = false) :
    MacOptimizer.delete_selected_profile fs profiles name confirm
      = Except.ok (fs, profiles) := by
  unfold MacOptimizer.delete_selected_profile
  simp [h]

/-- Witness for C5: deleting the absent name "Gaming" from the default
mapping leaves the store exactly as it was. -/
theorem delete_absent_name_noop_witness :
    MacOptimizer.delete_selected_profile ⟨true, true, FileState.missing⟩
        defaultProfiles "Gaming" true
      = Except.ok (⟨true, true, FileState.missing⟩, defaultProfiles) :=
  delete_absent_name_noop ⟨true, true, FileState.missing⟩ defaultProfiles
    "Gaming" true (by rfl)

/-- C6: `save_profiles` serializes the full mapping to the backing document,
creating the containing directory if absent; when the directory/file cannot
be written the I/O failure is raised to the caller — the method has no
exception handler, so it is never swallowed. -/
theorem save_serializes_and_propagates_errors (fs : Fs) (m : ProfilesMap) :
    (fs.writable = true →
      MacOptimizer.save_profiles fs (encodeProfiles m)
        = Except.ok { writable := fs.writable, dirExists := true,
                      file := FileState.parsed (encodeProfiles m) }) ∧
    (fs.writable = false →
      MacOptimizer.save_profiles fs (encodeProfiles m)
        = Except.error FsError.cannotWrite) := by
  constructor <;> intro h <;> simp [MacOptimizer.save_profiles, h]

/-- Witness for C6: a concrete successful save (directory created, document
written) and a concrete failing save (error propagated). -/
theorem save_serializes_and_propagates_errors_witness :
    MacOptimizer.save_profiles ⟨true, false, FileState.missing⟩
        (encodeProfiles defaultProfiles)
      = Except.ok ⟨true, true, FileState.parsed (encodeProfiles defaultProfiles)⟩ ∧
    MacOptimizer.save_profiles ⟨false, false, FileState.missing⟩
        (encodeProfiles defaultProfiles)
      = Except.error FsError.cannotWrite :=
  ⟨(save_serializes_and_propagates_errors ⟨true, false, FileState.missing⟩
      defaultProfiles).1 rfl,
   (save_serializes_and_propagates_errors ⟨false, false, FileState.missing⟩
      defaultProfiles).2 rfl⟩

/-- C7: `save(load())` is idempotent — for every writable backing-store
state, loading, saving the loaded document, and loading again yields the
same document as the first load; on the default-fallback path this is the
save that first persists the defaults. -/
theorem save_load_idempotent (fs : Fs) (hw : fs.writable = true) :
    ∃ fs1 v fs2 fs3,
      MacOptimizer.load_profiles fs = Except.ok (fs1, v) ∧
      MacOptimizer.save_profiles fs1 v = Except.ok fs2 ∧
      MacOptimizer.load_profiles fs2 = Except.ok (fs3, v) := by
  have hg : (!fs.dirExists && !fs.writable) = false := by simp [hw]
  cases hf : fs.file with
  | parsed v =>
    refine ⟨⟨fs.writable, true, FileState.parsed v⟩, v,
            ⟨fs.writable, true, FileState.parsed v⟩,
            ⟨fs.writable, true, FileState.parsed v⟩, ?_, ?_, ?_⟩
    · simp [MacOptimizer.load_profiles, hg, hf]
    · simp [MacOptimizer.save_profiles, hw]
    · simp [MacOptimizer.load_profiles, hw]
  | unparsable =>
    refine ⟨⟨fs.writable, true, FileState.unparsable⟩,
            encodeProfiles defaultProfiles,
            ⟨fs.writable, true, FileState.parsed (encodeProfiles defaultProfiles)⟩,
            ⟨fs.writable, true, FileState.parsed (encodeProfiles defaultProfiles)⟩,
            ?_, ?_, ?_⟩
    · simp [MacOptimizer.load_profiles, hg, hf]
    · simp [MacOptimizer.save_profiles, hw]
    · simp [MacOptimizer.load_profiles, hw]
  | missing =>
    refine ⟨⟨fs.writable, true, FileState.missing⟩,
            encodeProfiles defaultProfiles,
            ⟨fs.writable, true, FileState.parsed (encodeProfiles defaultProfiles)⟩,
            ⟨fs.writable, true, FileState.parsed (encodeProfiles defaultProfiles)⟩,
            ?_, ?_, ?_⟩
    · simp [MacOptimizer.load_profiles, hg, hf]
    · simp [MacOptimizer.save_profiles, hw]
    · simp [MacOptimizer.load_profiles, hw]

/-- Witness for C7 at a concrete store state (missing backing file). -/
theorem save_load_idempotent_witness :
    ∃ fs1 v fs2 fs3,
      MacOptimizer.load_profiles ⟨true, false, FileState.missing⟩
        = Except.ok (fs1, v) ∧
      MacOptimizer.save_profiles fs1 v = Except.ok fs2 ∧
      MacOptimizer.load_profiles fs2 = Except.ok (fs3, v) :=
  save_load_idempotent ⟨true, false, FileState.missing⟩ rfl

/-- C8 counterexample: `load_profiles` is not free of file-system writes —
with the profiles directory absent on a writable filesystem, loading
creates it (`PROFILES_DIR.mkdir(exist_ok=True)`), so `save` is not the only
operation that writes to the file system; and with the directory absent on
a non-writable filesystem, `load_profiles` does not return the defaults at
all: the `mkdir` raises. -/
theorem load_creates_directory_counterexample :
    (⟨true, false, FileState.missing⟩ : Fs).dirExists = false ∧
    MacOptimizer.load_profiles ⟨true, false, FileState.missing⟩
      = Except.ok (⟨true, true, FileState.missing⟩,
                   encodeProfiles defaultProfiles) ∧
    MacOptimizer.load_profiles ⟨false, false, FileState.missing⟩
      = Except.error FsError.cannotWrite :=
  ⟨rfl, rfl, rfl⟩

/-- C8 (amended): when the backing file does not exist and the profiles
directory exists or the filesystem is writable, `load_profiles` returns the
non-empty built-in default mapping and neither creates nor modifies the
backing file; it does, however, create the profiles directory if absent
(and when the directory is absent and cannot be created, the `mkdir`
raises) — the backing file itself is written only by `save_profiles`. -/
theorem load_missing_defaults_file_untouched (fs : Fs)
    (hmk : fs.dirExists = true ∨ fs.writable = true)
    (h : fs.file = FileState.missing) :
    ∃ fs', MacOptimizer.load_profiles fs
        = Except.ok (fs', encodeProfiles defaultProfiles) ∧
      fs'.file = fs.file ∧
      fs'.dirExists = true ∧
      decodeProfiles (encodeProfiles defaultProfiles) = some defaultProfiles ∧
      defaultProfiles ≠ [] := by
  have hg : (!fs.dirExists && !fs.writable) = false := by
    rcases hmk with hmk | hmk <;> simp [hmk]
  refine ⟨⟨fs.writable, true, fs.file⟩, ?_,
          rfl, rfl, decodeProfiles_encodeProfiles _, by simp [defaultProfiles]⟩
  simp [MacOptimizer.load_profiles, hg, h]

/-- Witness for the amended C8 at a concrete store state (directory absent,
writable filesystem, missing file). -/
theorem load_missing_defaults_file_untouched_witness :
    ∃ fs', MacOptimizer.load_profiles ⟨true, false, FileState.missing⟩
        = Except.ok (fs', encodeProfiles defaultProfiles) ∧
      fs'.file = (⟨true, false, FileState.missing⟩ : Fs).file ∧
      fs'.dirExists = true ∧
      decodeProfiles (encodeProfiles defaultProfiles) = some defaultProfiles ∧
      defaultProfiles ≠ [] :=
  load_missing_defaults_file_untouched ⟨true, false, FileState.missing⟩
    (Or.inr rfl) rfl

/-- C1: a profile saved via the store's upsert (`save_current_profile`: adds
or replaces the entry under the given name, then persists the full mapping)
and then retrieved via `load_profiles` is structurally equal to the saved
profile: same name, same optimization keys in the original order, same
description. -/
theorem profile_upsert_then_load_roundtrip (fs : Fs) (profiles : ProfilesMap)
    (selected : List String) (name desc now : String)
    (hw : fs.writable = true) (hsel : selected ≠ []) :
    ∃ fs' m' fs'' v loaded,
      MacOptimizer.save_current_profile fs profiles selected
          (some (name, desc)) now = Except.ok (fs', m') ∧
      MacOptimizer.load_profiles fs' = Except.ok (fs'', v) ∧
      decodeProfiles v = some loaded ∧
      lookupProfile loaded name = some ⟨selected, desc, some now⟩ := by
  have hne : selected.isEmpty = false := by
    cases selected with
    | nil => exact absurd rfl hsel
    | cons a as => rfl
  refine ⟨⟨fs.writable, true,
           FileState.parsed (encodeProfiles
             (dictInsert profiles name ⟨selected, desc, some now⟩))⟩,
          dictInsert profiles name ⟨selected, desc, some now⟩,
          ⟨fs.writable, true,
           FileState.parsed (encodeProfiles
             (dictInsert profiles name ⟨selected, desc, some now⟩))⟩,
          encodeProfiles (dictInsert profiles name ⟨selected, desc, some now⟩),
          dictInsert profiles name ⟨selected, desc, some now⟩, ?_, ?_,
          decodeProfiles_encodeProfiles _, ?_⟩
  · unfold MacOptimizer.save_current_profile
    rw [hne]
    simp [MacOptimizer.save_profiles, hw]
  · simp [MacOptimizer.load_profiles]
  · exact lookupProfile_dictInsert profiles name ⟨selected, desc, some now⟩

/-- Witness for C1 at a concrete input: save the profile "Gaming" with one
key, then load it back. -/
theorem profile_upsert_then_load_roundtrip_witness :
    ∃ fs' m' fs'' v loaded,
      MacOptimizer.save_current_profile ⟨true, false, FileState.missing⟩ []
          ["purge_memory"] (some ("Gaming", "fast")) "2025-01-01T00:00:00"
        = Except.ok (fs', m') ∧
      MacOptimizer.load_profiles fs' = Except.ok (fs'', v) ∧
      decodeProfiles v = some loaded ∧
      lookupProfile loaded "Gaming"
        = some ⟨["purge_memory"], "fast", some "2025-01-01T00:00:00"⟩ :=
  profile_upsert_then_load_roundtrip ⟨true, false, FileState.missing⟩ []
    ["purge_memory"] "Gaming" "fast" "2025-01-01T00:00:00" rfl (by simp)

/-- C2: the batch executor yields exactly one result per key, in the given
order, and no per-command failure aborts the batch: a key absent from the
catalog yields a failed / not-implemented result and the following keys
still execute; a key present in the catalog yields exactly the record
`run_command` produces for it, in which a non-zero exit code or a thrown
execution error is recorded without stopping the remaining keys. -/
theorem batch_one_result_per_key (exec : String → ExecOutcome)
    (keys : List String) :
    (MacOptimizer.execute_optimizations exec keys).length = keys.length ∧
    (MacOptimizer.execute_optimizations exec keys).map (fun r => r.key) = keys ∧
    (∀ (i : Nat) (k : String), keys[i]? = some k →
      MacOptimizer.lookupCatalog k = none →
      (MacOptimizer.execute_optimizations exec keys)[i]?
        = some ⟨k, "", "", none, "", "", false, true⟩) ∧
    (∀ (i : Nat) (k cmd desc : String), keys[i]? = some k →
      MacOptimizer.lookupCatalog k = some (cmd, desc) →
      (MacOptimizer.execute_optimizations exec keys)[i]?
        = some (MacOptimizer.run_command exec k cmd desc)) := by
  refine ⟨by simp [MacOptimizer.execute_optimizations], execute_map_key exec keys,
          ?_, ?_⟩
  · intro i k hk hnone
    rw [execute_getElem, hk]
    simp [MacOptimizer.execute_one, hnone]
  · intro i k cmd desc hk hsome
    rw [execute_getElem, hk]
    simp [MacOptimizer.execute_one, hsome]

/-- Witness for C2: the batch `["purge_memory", "unknown_key",
"flush_dns"]` (with the middle key absent from the catalog) yields three
results in that order, the middle one failed / not-implemented. -/
theorem batch_one_result_per_key_witness :
    (MacOptimizer.execute_optimizations (fun _ => ExecOutcome.ok 0 "" "")
        ["purge_memory", "unknown_key", "flush_dns"]).length = 3 ∧
    (MacOptimizer.execute_optimizations (fun _ => ExecOutcome.ok 0 "" "")
        ["purge_memory", "unknown_key", "flush_dns"]).map (fun r => r.key)
      = ["purge_memory", "unknown_key", "flush_dns"] ∧
    (MacOptimizer.execute_optimizations (fun _ => ExecOutcome.ok 0 "" "")
        ["purge_memory", "unknown_key", "flush_dns"])[1]?
      = some ⟨"unknown_key", "", "", none, "", "", false, true⟩ := by
  have h := batch_one_result_per_key (fun _ => ExecOutcome.ok 0 "" "")
    ["purge_memory", "unknown_key", "flush_dns"]
  exact ⟨h.1, h.2.1, h.2.2.1 1 "unknown_key" rfl rfl⟩

/-- C4: for every executed command, the result's `succeeded` field equals
(exit code == 0), and the exit code itself is recorded in the result. -/
theorem run_command_succeeded_iff_exit_zero (exec : String → ExecOutcome)
    (k cmd desc : String) (code : Int) (out err : String)
    (h : exec cmd = ExecOutcome.ok code out err) :
    (MacOptimizer.run_command exec k cmd desc).succeeded = (code == 0) ∧
    (MacOptimizer.run_command exec k cmd desc).exitCode = some code := by
  unfold MacOptimizer.run_command
  rw [h]
  exact ⟨rfl, rfl⟩

/-- Witness for C4: with an environment in which `sudo purge` exits 0 and
every other command exits 1, running the catalog keys `purge_memory` then
`optimize_tcp` yields `succeeded = [true, false]`, in that order. -/
theorem run_command_succeeded_iff_exit_zero_witness :
    (MacOptimizer.run_command
        (fun c => if c == "sudo purge" then ExecOutcome.ok 0 "" ""
                  else ExecOutcome.ok 1 "" "fail")
        "purge_memory" "sudo purge" "Purging inactive memory").succeeded
      = ((0 : Int) == 0) ∧
    (MacOptimizer.execute_optimizations
        (fun c => if c == "sudo purge" then ExecOutcome.ok 0 "" ""
                  else ExecOutcome.ok 1 "" "fail")
        ["purge_memory", "optimize_tcp"]).map (fun r => r.succeeded)
      = [true, false] :=
  ⟨(run_command_succeeded_iff_exit_zero
      (fun c => if c == "sudo purge" then ExecOutcome.ok 0 "" ""
                else ExecOutcome.ok 1 "" "fail")
      "purge_memory" "sudo purge" "Purging inactive memory" 0 "" "" rfl).1,
   rfl⟩

/-- C9: the claimed serialization is false of the program. The "Run
Selected Optimizations" button is disabled while a batch is in flight, but
the "Run Profile" button never is, and its handler `run_selected_profile`
calls `run_selected_optimizations` ungated. Starting a batch from the
initial state via the run button and then, while it is in flight, clicking
"Run Profile" (profile selected, confirmation accepted) reaches a state
with two batches executing in parallel within one interface instance. -/
theorem parallel_batches_reachable :
    UiReachable { runBtnEnabled := false, inFlight := 2 } ∧
    ({ runBtnEnabled := false, inFlight := 2 } : UiState).inFlight > 1 := by
  refine ⟨?_, by decide⟩
  exact UiReachable.step
    (UiReachable.step UiReachable.init (UiStep.clickRun uiInit rfl))
    (UiStep.clickRunProfile ⟨false, 1⟩)

/-- C10: for a profile name present in the store, the menu-bar agent's
`run_profile` executes no shell command and mutates no state: its only
effect is posting a "Profile Running" notification (the execution itself is
an unimplemented stub). -/
theorem menubar_run_profile_only_notifies (profiles : ProfilesMap)
    (name : String) (h : profiles.any (fun f => f.1 == name) = true) :
    OptiMacMenuBar.run_profile profiles name
      = ([AgentEffect.notify "OptiMac" "Profile Running"
            ("Running " ++ name ++ " profile...")], profiles) ∧
    ∀ e ∈ (OptiMacMenuBar.run_profile profiles name).1, ∀ c,
      e ≠ AgentEffect.shell c := by
  have h1 : OptiMacMenuBar.run_profile profiles name
      = ([AgentEffect.notify "OptiMac" "Profile Running"
            ("Running " ++ name ++ " profile...")], profiles) := by
    unfold OptiMacMenuBar.run_profile
    rw [if_pos h]
  refine ⟨h1, ?_⟩
  rw [h1]
  intro e he c
  simp only [List.mem_singleton] at he
  subst he
  intro hc
  exact AgentEffect.noConfusion hc

/-- Witness for C10: running the stored profile "Developer Setup" from the
menu bar only posts the notification and leaves the mapping unchanged. -/
theorem menubar_run_profile_only_notifies_witness :
    OptiMacMenuBar.run_profile defaultProfiles "Developer Setup"
      = ([AgentEffect.notify "OptiMac" "Profile Running"
            "Running Developer Setup profile..."], defaultProfiles) ∧
    ∀ e ∈ (OptiMacMenuBar.run_profile defaultProfiles "Developer Setup").1, ∀ c,
      e ≠ AgentEffect.shell c :=
  menubar_run_profile_only_notifies defaultProfiles "Developer Setup" rfl
